import Mathlib

/-!
Verification of the Inventory Stock Ledger and Valuation Engine of the
GoCodes repository (`backend/routers/inventory.py`).

The Python handlers `create_inventory_transaction` (lines 794-1064) and
`bulk_delete_transactions` (lines 1066-1135) are shallowly embedded here.
Modelling conventions:

* Python `float` / `Decimal` quantities and costs become `ℚ`; the
  `Decimal(str(x))` round-trips in the source are modelled as the identity.
* Nullable fields become `Option`.  Python truthiness tests (`if x:`) on
  numbers are `truthyQ` (false for `None` and `0`), on strings `truthyStr`
  (false for `None` and `""`).
* The Prisma store is a record `DB` holding the item rows, the transaction
  rows and the next transaction id the store will assign.
* `prisma.tx()` (the atomic unit) is modelled by `runAtomic`: the writes
  performed inside the block either all apply or, when a (simulated) fault
  hits any of them, none do and the error surfaces.
* The handler's code before `prisma.tx()` (validation, item lookups, cost
  and stock computation, the insufficient-stock check, lines 807-905) is
  `planTransaction`; the write block (lines 908-1003) produces the list of
  writes `transferWrites` / `simpleWrites`.  This mirrors the source's
  phase structure: every read used for decision making happens before the
  atomic block opens.
-/

namespace GoCodes

/-- One row of the `InventoryItem` table (the fields the ledger touches). -/
structure InventoryItemRec where
  id : String
  itemCode : String
  name : String
  currentStock : ℚ
  unitCost : Option ℚ
  isDeleted : Bool
deriving DecidableEq

/-- One row of the `InventoryTransaction` table. -/
structure InventoryTransactionRec where
  id : Nat
  inventoryItemId : String
  transactionType : String
  quantity : ℚ
  unitCost : Option ℚ
  reference : Option String
  notes : Option String
  actionBy : String
  relatedTransactionId : Option Nat
deriving DecidableEq

/-- The backing store: item rows, transaction rows, and the id the store
will assign to the next inserted transaction. -/
structure DB where
  items : List InventoryItemRec
  transactions : List InventoryTransactionRec
  nextTxId : Nat
deriving DecidableEq

/-- Modelled from the spec: the request body `InventoryTransactionCreate`
(§6 `recordTransaction`).  Its Pydantic definition lives in
`backend/models/inventory.py`, which is not part of the provided sources;
following §6 and the style of the model files that are present
(`models/sites.py` etc.), every field is an unconstrained optional value —
in particular `quantity` carries any decimal, validation being the
handler's job (§7). -/
structure InventoryTransactionCreate where
  transactionType : Option String
  quantity : Option ℚ
  unitCost : Option ℚ
  reference : Option String
  notes : Option String
  destinationItemId : Option String
deriving DecidableEq

/-- Python truthiness of an optional number: `None` and `0` are falsy. -/
def truthyQ : Option ℚ → Bool
  | none => false
  | some q => decide (q ≠ 0)

/-- Python truthiness of an optional string: `None` and `""` are falsy. -/
def truthyStr : Option String → Bool
  | none => false
  | some s => decide (s ≠ "")

/-- Python `x or d` for an optional string `x` and default `d`. -/
def orElseStr (x : Option String) (d : String) : String :=
  match x with
  | none => d
  | some s => if s = "" then d else s

/-- `is_uuid` (inventory.py line 46): the string matches
`^[0-9a-f]{8}-[0-9a-f]{4}-[0-9a-f]{4}-[0-9a-f]{4}-[0-9a-f]{12}$`,
case-insensitively. -/
def isHexChar (c : Char) : Bool :=
  c.isDigit || (('a' ≤ c && c ≤ 'f') || ('A' ≤ c && c ≤ 'F'))

/-- `is_uuid` over the 36-character hyphenated layout. -/
def is_uuid (s : String) : Bool :=
  let cs := s.toList
  decide (cs.length = 36) &&
  (List.range 36).all (fun i =>
    if i = 8 ∨ i = 13 ∨ i = 18 ∨ i = 23 then decide (cs.getD i ' ' = '-')
    else isHexChar (cs.getD i ' '))

/-- `prisma.inventoryitem.find_first(where={id/itemCode: ident, isDeleted: False})`
(lines 820-831): match on `id` when the identifier looks like a UUID,
otherwise on `itemCode`; soft-deleted rows are excluded; first match wins. -/
def findItemWhere (db : DB) (ident : String) : Option InventoryItemRec :=
  db.items.find? (fun it =>
    (if is_uuid ident then decide (it.id = ident) else decide (it.itemCode = ident))
      && !it.isDeleted)

/-- The typed failures `create_inventory_transaction` can raise, in source
order; `txAborted` stands for an exception escaping the `prisma.tx()` block
(caught by the generic handler as HTTP 500), `internalError` for the
unreachable defensive arms. -/
inductive TxError
  | missingTypeOrQuantity
  | invalidType
  | sourceNotFound
  | destinationRequired
  | selfTransfer
  | destinationNotFound
  | insufficientStock
  | txAborted
  | internalError
deriving DecidableEq

/-- The HTTP status each failure is surfaced with in the source. -/
def txErrorStatus : TxError → Nat
  | .missingTypeOrQuantity => 400
  | .invalidType => 400
  | .sourceNotFound => 404
  | .destinationRequired => 400
  | .selfTransfer => 400
  | .destinationNotFound => 404
  | .insufficientStock => 400
  | .txAborted => 500
  | .internalError => 500

/-- Everything the handler computes before `prisma.tx()` opens and carries
into the write block: the item rows as read at the start of the request,
the validated type and quantity, and the precomputed new balance/cost. -/
structure TxPlan where
  sourceItem : InventoryItemRec
  destItem : Option InventoryItemRec
  ttype : String
  qty : ℚ
  tdUnitCost : Option ℚ
  reference : Option String
  notes : Option String
  newSourceStock : ℚ
  newUnitCost : Option ℚ
deriving DecidableEq

/-- Lines 876-905: quantity and cost arithmetic plus the stock-change
computation and the insufficient-stock check, performed on the row read at
the start of the request.  `new_unit_cost` starts as the source item's
truthy cost (line 881); for an `IN` with a truthy request cost it becomes
the weighted average when both current stock and current cost are positive,
otherwise the incoming cost (lines 882-893). -/
def finishPlan (source_item : InventoryItemRec) (destItem : Option InventoryItemRec)
    (ttype : String) (td : InventoryTransactionCreate) : Except TxError TxPlan :=
  let qty := td.quantity.getD 0
  let newUnitCost0 : Option ℚ :=
    if truthyQ source_item.unitCost then source_item.unitCost else none
  let newUnitCost : Option ℚ :=
    if ttype = "IN" ∧ truthyQ td.unitCost then
      let current_cost : ℚ :=
        if truthyQ source_item.unitCost then source_item.unitCost.getD 0 else 0
      let current_stock := source_item.currentStock
      let new_cost := td.unitCost.getD 0
      if current_stock > 0 ∧ current_cost > 0 then
        some ((current_stock * current_cost + qty * new_cost) / (current_stock + qty))
      else
        some new_cost
    else newUnitCost0
  if ttype = "IN" ∨ ttype = "ADJUSTMENT" then
    .ok { sourceItem := source_item, destItem := destItem, ttype := ttype, qty := qty,
          tdUnitCost := td.unitCost, reference := td.reference, notes := td.notes,
          newSourceStock := source_item.currentStock + qty, newUnitCost := newUnitCost }
  else
    let ns := source_item.currentStock - qty
    if ns < 0 then .error .insufficientStock
    else
      .ok { sourceItem := source_item, destItem := destItem, ttype := ttype, qty := qty,
            tdUnitCost := td.unitCost, reference := td.reference, notes := td.notes,
            newSourceStock := ns, newUnitCost := newUnitCost }

/-- Lines 807-905 of `create_inventory_transaction`: everything before the
atomic block — validation, source/destination lookup, arithmetic, and the
insufficient-stock check, all against the committed state `db` as it was
when the request started. -/
def planTransaction (db : DB) (item_id : String) (td : InventoryTransactionCreate) :
    Except TxError TxPlan :=
  if ¬ truthyStr td.transactionType ∨ ¬ truthyQ td.quantity then
    .error .missingTypeOrQuantity
  else
    let ttype := td.transactionType.getD ""
    if ¬ (ttype = "IN" ∨ ttype = "OUT" ∨ ttype = "ADJUSTMENT" ∨ ttype = "TRANSFER") then
      .error .invalidType
    else
      match findItemWhere db item_id with
      | none => .error .sourceNotFound
      | some source_item =>
        if ttype = "TRANSFER" ∧ ¬ truthyStr td.destinationItemId then
          .error .destinationRequired
        else if ttype = "TRANSFER" ∧ td.destinationItemId = some item_id then
          .error .selfTransfer
        else if ttype = "TRANSFER" then
          match findItemWhere db (td.destinationItemId.getD "") with
          | none => .error .destinationNotFound
          | some destination_item => finishPlan source_item (some destination_item) ttype td
        else finishPlan source_item none ttype td

/-- A single Prisma write performed inside the `prisma.tx()` block.
`updateItemData`'s last component is `none` when the update payload does
not mention `unitCost`, and `some c` when it sets `unitCost` to `c`
(possibly null). -/
inductive DBWrite
  | createTx (t : InventoryTransactionRec)
  | updateTxRelated (txId : Nat) (related : Option Nat)
  | updateItemData (itemId : String) (stock : ℚ) (cost : Option (Option ℚ))
deriving DecidableEq

/-- Effect of one write on the store; a `create` consumes the next id. -/
def applyWrite (db : DB) : DBWrite → DB
  | .createTx t =>
      { db with transactions := db.transactions ++ [t], nextTxId := db.nextTxId + 1 }
  | .updateTxRelated i r =>
      { db with transactions := db.transactions.map (fun t =>
          if t.id = i then { t with relatedTransactionId := r } else t) }
  | .updateItemData iid s c =>
      { db with items := db.items.map (fun it =>
          if it.id = iid then
            { it with currentStock := s,
                      unitCost := match c with
                                  | none => it.unitCost
                                  | some c => c }
          else it) }

/-- Apply a committed sequence of writes. -/
def runTx (db : DB) (ws : List DBWrite) : DB :=
  ws.foldl applyWrite db

/-- The atomic unit: the block's writes all commit, or — when a simulated
fault hits any of them — none persist and the failure surfaces. -/
def runAtomic (db : DB) (ws : List DBWrite) (fault : DBWrite → Bool) : Option DB :=
  if ws.any fault then none else some (runTx db ws)

/-- The destination-side cost recomputation of a transfer
(lines 955-966): the destination's truthy cost, replaced — when the request
carries a truthy cost — by the weighted average against the destination's
own prior stock/cost when both are positive, else by the incoming cost. -/
def destNewUnitCost (dest : InventoryItemRec) (qty : ℚ) (tdUnitCost : Option ℚ) : Option ℚ :=
  let ndc0 : Option ℚ := if truthyQ dest.unitCost then dest.unitCost else none
  if truthyQ tdUnitCost then
    let dest_current_cost : ℚ :=
      if truthyQ dest.unitCost then dest.unitCost.getD 0 else 0
    let dest_current_stock := dest.currentStock
    let transfer_cost := tdUnitCost.getD 0
    if dest_current_stock > 0 ∧ dest_current_cost > 0 then
      some ((dest_current_stock * dest_current_cost + qty * transfer_cost)
              / (dest_current_stock + qty))
    else some transfer_cost
  else ndc0

/-- The five writes of the `TRANSFER` branch of the atomic block
(lines 909-974), in source order: create the source-side row (tagged
`TRANSFER`), create the destination-side row (tagged `IN`, already
referencing the source row), point the source row back at it, write the
source balance, write the destination balance and cost.  Note line 972: a
falsy computed destination cost is stored as null. -/
def mkTransferSrcTx (db : DB) (user_name : String) (p : TxPlan)
    (dest : InventoryItemRec) : InventoryTransactionRec :=
  { id := db.nextTxId, inventoryItemId := p.sourceItem.id, transactionType := "TRANSFER",
    quantity := p.qty,
    unitCost := if truthyQ p.tdUnitCost then p.tdUnitCost else none,
    reference := p.reference,
    notes := some (orElseStr p.notes ("Transfer to " ++ dest.name)),
    actionBy := user_name, relatedTransactionId := none }

/-- The destination-side row of a transfer (lines 923-935): note it is
created with `transactionType` `"IN"` (line 927), already referencing the
source row. -/
def mkTransferDestTx (db : DB) (user_name : String) (p : TxPlan)
    (dest : InventoryItemRec) : InventoryTransactionRec :=
  { id := db.nextTxId + 1, inventoryItemId := dest.id, transactionType := "IN",
    quantity := p.qty,
    unitCost := if truthyQ p.tdUnitCost then p.tdUnitCost else none,
    reference := p.reference,
    notes := some (orElseStr p.notes ("Transfer from " ++ p.sourceItem.name)),
    actionBy := user_name, relatedTransactionId := some db.nextTxId }

def transferWrites (db : DB) (user_name : String) (p : TxPlan)
    (dest : InventoryItemRec) : List DBWrite :=
  let ndc := destNewUnitCost dest p.qty p.tdUnitCost
  [ .createTx (mkTransferSrcTx db user_name p dest),
    .createTx (mkTransferDestTx db user_name p dest),
    .updateTxRelated db.nextTxId (some (db.nextTxId + 1)),
    .updateItemData p.sourceItem.id p.newSourceStock none,
    .updateItemData dest.id (dest.currentStock + p.qty)
      (some (if truthyQ ndc then ndc else none)) ]

/-- The two writes of the non-transfer branch of the atomic block
(lines 977-1001): create the row, then update the balance — and the cost,
but only for an `IN` whose computed `new_unit_cost` is not `None`
(line 995 tests `is not None`, not truthiness). -/
def mkSimpleTx (db : DB) (user_name : String) (p : TxPlan) : InventoryTransactionRec :=
  { id := db.nextTxId, inventoryItemId := p.sourceItem.id, transactionType := p.ttype,
    quantity := p.qty,
    unitCost := if truthyQ p.tdUnitCost then p.tdUnitCost else none,
    reference := p.reference, notes := p.notes,
    actionBy := user_name, relatedTransactionId := none }

def simpleWrites (db : DB) (user_name : String) (p : TxPlan) : List DBWrite :=
  let costUpd : Option (Option ℚ) :=
    if p.ttype = "IN" ∧ p.newUnitCost.isSome then some p.newUnitCost else none
  [ .createTx (mkSimpleTx db user_name p),
    .updateItemData p.sourceItem.id p.newSourceStock costUpd ]

/-- `create_inventory_transaction` (lines 794-1064) with fault injection on
the writes of the atomic block: plan (reads, validation, arithmetic, the
insufficient-stock check) against the committed state, then run the write
block atomically, then re-fetch the result row (line 1006). -/
def create_tx_with_faults (db : DB) (user_name item_id : String)
    (td : InventoryTransactionCreate) (fault : DBWrite → Bool) :
    Except TxError (DB × InventoryTransactionRec) :=
  match planTransaction db item_id td with
  | .error e => .error e
  | .ok p =>
    if p.ttype = "TRANSFER" then
      match p.destItem with
      | none => .error .internalError
      | some dest =>
        match runAtomic db (transferWrites db user_name p dest) fault with
        | none => .error .txAborted
        | some db1 =>
          match db1.transactions.find? (fun t => decide (t.id = db.nextTxId)) with
          | some t => .ok (db1, t)
          | none => .error .internalError
    else
      match runAtomic db (simpleWrites db user_name p) fault with
      | none => .error .txAborted
      | some db1 =>
        match db1.transactions.find? (fun t => decide (t.id = db.nextTxId)) with
        | some t => .ok (db1, t)
        | none => .error .internalError

/-- `create_inventory_transaction` as shipped: no faults. -/
def create_inventory_transaction (db : DB) (user_name item_id : String)
    (td : InventoryTransactionCreate) : Except TxError (DB × InventoryTransactionRec) :=
  create_tx_with_faults db user_name item_id td (fun _ => false)

/-- The store as the caller observes it after one request: the committed
state on success, the untouched previous state on any failure. -/
def applyCreate (db : DB) (user_name item_id : String)
    (td : InventoryTransactionCreate) : DB :=
  match create_inventory_transaction db user_name item_id td with
  | .ok (db1, _) => db1
  | .error _ => db

/-- Same observation for the fault-injected variant. -/
def applyCreateFaults (db : DB) (user_name item_id : String)
    (td : InventoryTransactionCreate) (fault : DBWrite → Bool) : DB :=
  match create_tx_with_faults db user_name item_id td fault with
  | .ok (db1, _) => db1
  | .error _ => db

/-- A sequence of transaction requests applied through the handler. -/
def applySeq (db : DB) (user_name : String)
    (reqs : List (String × InventoryTransactionCreate)) : DB :=
  reqs.foldl (fun d r => applyCreate d user_name r.1 r.2) db

/-- Two concurrent non-transfer requests under the interleaving the source
permits: each handler runs its read/validation/check phase (lines 807-905,
including the insufficient-stock check) against the same committed state
`db` before either opens its `prisma.tx()` block, and the two write blocks
then commit one after the other.  Nothing in the source re-reads or
re-checks the balance inside the atomic block — the writes use the
precomputed absolute values. -/
def concurrentCreate (db : DB) (u : String)
    (i1 : String) (td1 : InventoryTransactionCreate)
    (i2 : String) (td2 : InventoryTransactionCreate) : Option DB :=
  match planTransaction db i1 td1, planTransaction db i2 td2 with
  | .ok p1, .ok p2 =>
    if p1.ttype = "TRANSFER" ∨ p2.ttype = "TRANSFER" then none
    else
      let db1 := runTx db (simpleWrites db u p1)
      some (runTx db1 (simpleWrites db1 u p2))
  | _, _ => none

/-- The failures of `bulk_delete_transactions`, in source order. -/
inductive BulkDelError
  | idsRequired
  | itemNotFound
  | someTransactionsNotFound
deriving DecidableEq

/-- The HTTP status of each bulk-delete failure in the source: the
id/ownership mismatch at line 1112 is surfaced as 400, not 404. -/
def bulkDelErrorStatus : BulkDelError → Nat
  | .idsRequired => 400
  | .itemNotFound => 404
  | .someTransactionsNotFound => 400

/-- `bulk_delete_transactions` (lines 1066-1135): resolve the item, fetch
the transactions whose id is in the requested list and which belong to the
item, fail when the fetched count differs from the requested count,
otherwise delete exactly that set and return the deleted count. -/
def bulk_delete_transactions (db : DB) (item_id : String)
    (transactionIds : List Nat) : Except BulkDelError (DB × Nat) :=
  if transactionIds.isEmpty then .error .idsRequired
  else
    match findItemWhere db item_id with
    | none => .error .itemNotFound
    | some inventory_item =>
      let matching := db.transactions.filter (fun t =>
        transactionIds.contains t.id && decide (t.inventoryItemId = inventory_item.id))
      if matching.length ≠ transactionIds.length then .error .someTransactionsNotFound
      else
        let remaining := db.transactions.filter (fun t =>
          !(transactionIds.contains t.id && decide (t.inventoryItemId = inventory_item.id)))
        .ok ({ db with transactions := remaining }, matching.length)

/-- The store after one bulk-delete request (unchanged on failure). -/
def applyBulkDelete (db : DB) (item_id : String) (transactionIds : List Nat) : DB :=
  match bulk_delete_transactions db item_id transactionIds with
  | .ok (db1, _) => db1
  | .error _ => db

/-- Well-formedness of the store: item ids are unique, transaction ids are
unique, and every stored transaction id is below the next id the store will
assign. -/
def DB.WF (db : DB) : Prop :=
  (db.items.map (fun it => it.id)).Nodup ∧
  (db.transactions.map (fun t => t.id)).Nodup ∧
  ∀ t ∈ db.transactions, t.id < db.nextTxId

instance (db : DB) : Decidable db.WF := by
  unfold DB.WF
  infer_instance

/-- Look an item row up by system id. -/
def finalItem (db : DB) (iid : String) : Option InventoryItemRec :=
  db.items.find? (fun it => decide (it.id = iid))

/-! ### Concrete fixtures used by the witnesses and counterexamples -/

def uuidA : String := "aaaaaaaa-aaaa-aaaa-aaaa-aaaaaaaaaaaa"

def uuidB : String := "bbbbbbbb-bbbb-bbbb-bbbb-bbbbbbbbbbbb"

def itemA : InventoryItemRec :=
  { id := uuidA, itemCode := "X001", name := "Widget", currentStock := 10,
    unitCost := some 5, isDeleted := false }

def itemB : InventoryItemRec :=
  { id := uuidB, itemCode := "X002", name := "Gadget", currentStock := 0,
    unitCost := none, isDeleted := false }

def dbAB : DB := { items := [itemA, itemB], transactions := [], nextTxId := 0 }

def mkReq (t : Option String) (q : Option ℚ) (c : Option ℚ) (d : Option String) :
    InventoryTransactionCreate :=
  { transactionType := t, quantity := q, unitCost := c,
    reference := none, notes := none, destinationItemId := d }

/-- A destination item whose stored unit cost is the value 0 (not null). -/
def itemBz : InventoryItemRec :=
  { id := uuidB, itemCode := "X002", name := "Gadget", currentStock := 3,
    unitCost := some 0, isDeleted := false }

def dbABz : DB := { items := [itemA, itemBz], transactions := [], nextTxId := 0 }

/-- A destination item with positive stock and positive cost, used to hit
the weighted-average branch. -/
def itemC : InventoryItemRec :=
  { id := uuidB, itemCode := "X002", name := "Gadget", currentStock := 5,
    unitCost := some 2, isDeleted := false }

def dbAC : DB := { items := [itemA, itemC], transactions := [], nextTxId := 0 }

/-- A simulated fault on the destination-side transaction insert. -/
def faultDestCreate : DBWrite → Bool := fun w =>
  match w with
  | .createTx t => decide (t.inventoryItemId = uuidB)
  | _ => false

/-- The plan computed for a fault-free transfer of 4 units from item A. -/
def planC5 : TxPlan :=
  { sourceItem := itemA, destItem := some itemB, ttype := "TRANSFER", qty := 4,
    tdUnitCost := none, reference := none, notes := none,
    newSourceStock := itemA.currentStock - 4,
    newUnitCost := if truthyQ itemA.unitCost then itemA.unitCost else none }


/-- A stored transaction row used by the bulk-delete fixtures. -/
def txRec (n : Nat) (iid : String) : InventoryTransactionRec :=
  { id := n, inventoryItemId := iid, transactionType := "IN", quantity := 5,
    unitCost := none, reference := none, notes := none, actionBy := "u",
    relatedTransactionId := none }

/-- Two transactions, both on item A. -/
def dbDel : DB :=
  { items := [itemA, itemB], transactions := [txRec 0 uuidA, txRec 1 uuidA],
    nextTxId := 2 }

/-- Two transactions, the second belonging to item B. -/
def dbDel2 : DB :=
  { items := [itemA, itemB], transactions := [txRec 0 uuidA, txRec 1 uuidB],
    nextTxId := 2 }

/-! ### Store lemmas -/

lemma find?_id_map (l : List InventoryItemRec) (f : InventoryItemRec → InventoryItemRec)
    (hf : ∀ it, (f it).id = it.id) (iid : String) :
    (l.map f).find? (fun it => decide (it.id = iid)) =
      (l.find? (fun it => decide (it.id = iid))).map f := by
  rw [List.find?_map]
  have hc : ((fun it => decide (it.id = iid)) ∘ f) = fun it => decide (it.id = iid) := by
    funext it
    simp [Function.comp, hf]
  rw [hc]

lemma find?_id_of_nodup (l : List InventoryItemRec)
    (h : (l.map (fun it => it.id)).Nodup) (A : InventoryItemRec) (hA : A ∈ l) :
    l.find? (fun it => decide (it.id = A.id)) = some A := by
  induction l with
  | nil => cases hA
  | cons x xs ih =>
    rw [List.map_cons, List.nodup_cons] at h
    rcases List.mem_cons.mp hA with hAx | hAxs
    · subst hAx
      exact List.find?_cons_of_pos _ (by simp)
    · have hx : ¬ (x.id = A.id) := by
        intro he
        exact h.1 (he ▸ List.mem_map_of_mem (fun it => it.id) hAxs)
      rw [List.find?_cons_of_neg _ (by simp [hx])]
      exact ih h.2 hAxs

lemma find?_tx_fresh (l : List InventoryTransactionRec) (n : Nat)
    (h : ∀ t ∈ l, t.id < n) (rest : List InventoryTransactionRec) :
    (l ++ rest).find? (fun t => decide (t.id = n)) =
      rest.find? (fun t => decide (t.id = n)) := by
  rw [List.find?_append]
  have hnone : l.find? (fun t => decide (t.id = n)) = none := by
    rw [List.find?_eq_none]
    intro x hx
    simp only [decide_eq_true_eq]
    exact Nat.ne_of_lt (h x hx)
  rw [hnone, Option.none_or]

lemma map_updRel_fresh (l : List InventoryTransactionRec) (n : Nat) (r : Option Nat)
    (h : ∀ t ∈ l, t.id < n) :
    l.map (fun t => if t.id = n then { t with relatedTransactionId := r } else t) = l := by
  have : ∀ t ∈ l, (if t.id = n then { t with relatedTransactionId := r } else t) = t := by
    intro t ht
    rw [if_neg (Nat.ne_of_lt (h t ht))]
  rw [List.map_congr_left this]
  simp

/-! ### Characterization of the planning phase -/

lemma plan_in_eq (db : DB) (i : String) (td : InventoryTransactionCreate)
    (A : InventoryItemRec) (q : ℚ)
    (ht : td.transactionType = some ("IN"))
    (hq : td.quantity = some q) (hq0 : q ≠ 0)
    (hfind : findItemWhere db i = some A) :
    planTransaction db i td =
      .ok { sourceItem := A, destItem := none, ttype := "IN", qty := q,
            tdUnitCost := td.unitCost, reference := td.reference, notes := td.notes,
            newSourceStock := A.currentStock + q,
            newUnitCost :=
              if truthyQ td.unitCost then
                if A.currentStock > 0 ∧
                    (if truthyQ A.unitCost then A.unitCost.getD 0 else 0) > 0 then
                  some ((A.currentStock *
                          (if truthyQ A.unitCost then A.unitCost.getD 0 else 0) +
                        q * td.unitCost.getD 0) / (A.currentStock + q))
                else some (td.unitCost.getD 0)
              else if truthyQ A.unitCost then A.unitCost else none } := by
  unfold planTransaction
  rw [ht, hq, hfind]
  simp [truthyStr, truthyQ, hq0, finishPlan, hq]

lemma plan_out_eq (db : DB) (i : String) (td : InventoryTransactionCreate)
    (A : InventoryItemRec) (q : ℚ)
    (ht : td.transactionType = some ("OUT"))
    (hq : td.quantity = some q) (hq0 : q ≠ 0)
    (hfind : findItemWhere db i = some A) :
    planTransaction db i td =
      if A.currentStock - q < 0 then .error .insufficientStock
      else
        .ok { sourceItem := A, destItem := none, ttype := "OUT", qty := q,
              tdUnitCost := td.unitCost, reference := td.reference, notes := td.notes,
              newSourceStock := A.currentStock - q,
              newUnitCost := if truthyQ A.unitCost then A.unitCost else none } := by
  unfold planTransaction
  rw [ht, hq, hfind]
  simp [truthyStr, truthyQ, hq0, finishPlan, hq]

lemma plan_adjustment_eq (db : DB) (i : String) (td : InventoryTransactionCreate)
    (A : InventoryItemRec) (q : ℚ)
    (ht : td.transactionType = some ("ADJUSTMENT"))
    (hq : td.quantity = some q) (hq0 : q ≠ 0)
    (hfind : findItemWhere db i = some A) :
    planTransaction db i td =
      .ok { sourceItem := A, destItem := none, ttype := "ADJUSTMENT", qty := q,
            tdUnitCost := td.unitCost, reference := td.reference, notes := td.notes,
            newSourceStock := A.currentStock + q,
            newUnitCost := if truthyQ A.unitCost then A.unitCost else none } := by
  unfold planTransaction
  rw [ht, hq, hfind]
  simp [truthyStr, truthyQ, hq0, finishPlan, hq]

lemma plan_transfer_eq (db : DB) (i : String) (td : InventoryTransactionCreate)
    (A B : InventoryItemRec) (d : String) (q : ℚ)
    (ht : td.transactionType = some ("TRANSFER"))
    (hq : td.quantity = some q) (hq0 : q ≠ 0)
    (hd : td.destinationItemId = some d) (hd0 : d ≠ "") (hdi : d ≠ i)
    (hfind : findItemWhere db i = some A)
    (hfd : findItemWhere db d = some B) :
    planTransaction db i td =
      if A.currentStock - q < 0 then .error .insufficientStock
      else
        .ok { sourceItem := A, destItem := some B, ttype := "TRANSFER", qty := q,
              tdUnitCost := td.unitCost, reference := td.reference, notes := td.notes,
              newSourceStock := A.currentStock - q,
              newUnitCost := if truthyQ A.unitCost then A.unitCost else none } := by
  unfold planTransaction
  rw [ht, hq, hd, hfind]
  simp only [Option.getD_some] at hfd ⊢
  rw [hfd]
  simp [truthyStr, truthyQ, hq0, hd0, hdi, finishPlan, hq, hd]

/-! ### Characterization of the commit phase -/

lemma runAtomic_noFault (db : DB) (ws : List DBWrite) :
    runAtomic db ws (fun _ => false) = some (runTx db ws) := by
  simp [runAtomic]

lemma create_simple_of_plan (db : DB) (u i : String) (td : InventoryTransactionCreate)
    (p : TxPlan)
    (hplan : planTransaction db i td = .ok p) (hT : ¬ p.ttype = "TRANSFER")
    (hfresh : ∀ t ∈ db.transactions, t.id < db.nextTxId) :
    create_inventory_transaction db u i td =
      .ok ({ items := db.items.map (fun it =>
               if it.id = p.sourceItem.id then
                 { it with currentStock := p.newSourceStock,
                           unitCost :=
                             if p.ttype = "IN" ∧ p.newUnitCost.isSome then p.newUnitCost
                             else it.unitCost }
               else it),
             transactions := db.transactions ++ [mkSimpleTx db u p],
             nextTxId := db.nextTxId + 1 },
           mkSimpleTx db u p) := by
  unfold create_inventory_transaction create_tx_with_faults
  rw [hplan]
  simp only [if_neg hT]
  rw [runAtomic_noFault]
  simp only [runTx, simpleWrites, List.foldl, applyWrite]
  rw [find?_tx_fresh db.transactions db.nextTxId hfresh]
  rw [List.find?_cons_of_pos _ (by simp [mkSimpleTx])]
  by_cases hP : p.ttype = "IN" ∧ p.newUnitCost.isSome
  · simp only [if_pos hP]
  · simp only [if_neg hP]

lemma create_transfer_of_plan (db : DB) (u i : String) (td : InventoryTransactionCreate)
    (p : TxPlan) (dest : InventoryItemRec)
    (hplan : planTransaction db i td = .ok p) (hT : p.ttype = "TRANSFER")
    (hdest : p.destItem = some dest)
    (hfresh : ∀ t ∈ db.transactions, t.id < db.nextTxId) :
    create_inventory_transaction db u i td =
      .ok ({ items := (db.items.map (fun it =>
               if it.id = p.sourceItem.id then { it with currentStock := p.newSourceStock }
               else it)).map (fun it =>
               if it.id = dest.id then
                 { it with currentStock := dest.currentStock + p.qty,
                           unitCost :=
                             if truthyQ (destNewUnitCost dest p.qty p.tdUnitCost) then
                               destNewUnitCost dest p.qty p.tdUnitCost
                             else none }
               else it),
             transactions := db.transactions ++
               [ { mkTransferSrcTx db u p dest with
                     relatedTransactionId := some (db.nextTxId + 1) },
                 mkTransferDestTx db u p dest ],
             nextTxId := db.nextTxId + 2 },
           { mkTransferSrcTx db u p dest with
               relatedTransactionId := some (db.nextTxId + 1) }) := by
  unfold create_inventory_transaction create_tx_with_faults
  rw [hplan]
  simp only [if_pos hT]
  rw [hdest]
  simp only [runAtomic_noFault]
  simp only [runTx, transferWrites, List.foldl, applyWrite]
  simp only [List.map_append]
  rw [map_updRel_fresh db.transactions db.nextTxId _ hfresh]
  simp only [List.map_cons, List.map_nil]
  rw [if_pos (show (mkTransferSrcTx db u p dest).id = db.nextTxId from rfl)]
  rw [if_neg (show ¬ (mkTransferDestTx db u p dest).id = db.nextTxId by
    simp [mkTransferDestTx])]
  rw [List.append_assoc, find?_tx_fresh db.transactions db.nextTxId hfresh,
    List.singleton_append]
  rw [List.find?_cons_of_pos _ (by simp [mkTransferSrcTx])]

lemma create_error_of_plan (db : DB) (u i : String) (td : InventoryTransactionCreate)
    (e : TxError) (h : planTransaction db i td = .error e) :
    create_inventory_transaction db u i td = .error e := by
  unfold create_inventory_transaction create_tx_with_faults
  rw [h]

lemma id_of_stockCostUpd (j : String) (s : ℚ) (c : Option ℚ)
    (it : InventoryItemRec) :
    (if it.id = j then { it with currentStock := s, unitCost := c } else it).id = it.id := by
  by_cases h : it.id = j <;> simp [h]

lemma id_of_stockUpd (j : String) (s : ℚ) (it : InventoryItemRec) :
    (if it.id = j then { it with currentStock := s } else it).id = it.id := by
  by_cases h : it.id = j <;> simp [h]

/-! ### Claims -/

/-- C3: for an OUT movement the new stock is current stock minus quantity;
the operation fails with `InsufficientStock` exactly when that difference
would be negative (quantity equal to current stock succeeds, since the
check at line 900 is strict), and an OUT never changes the item's unit cost
(the update at lines 992-1001 touches only `currentStock` for an OUT). -/
theorem c3_out_movement (db : DB) (u i : String) (td : InventoryTransactionCreate)
    (A : InventoryItemRec) (q : ℚ)
    (hWF : db.WF)
    (ht : td.transactionType = some ("OUT"))
    (hq : td.quantity = some q) (hq0 : q ≠ 0)
    (hfind : findItemWhere db i = some A) :
    (create_inventory_transaction db u i td = .error .insufficientStock ↔
      A.currentStock - q < 0) ∧
    (¬ A.currentStock - q < 0 →
      ∃ db1 rec, create_inventory_transaction db u i td = .ok (db1, rec) ∧
        finalItem db1 A.id = some { A with currentStock := A.currentStock - q }) := by
  have hplan := plan_out_eq db i td A q ht hq hq0 hfind
  by_cases hs : A.currentStock - q < 0
  · rw [if_pos hs] at hplan
    refine ⟨Iff.intro (fun _ => hs) (fun _ => create_error_of_plan db u i td _ hplan),
      fun h => absurd hs h⟩
  · rw [if_neg hs] at hplan
    have hok := create_simple_of_plan db u i td _ hplan (by simp) hWF.2.2
    constructor
    · constructor
      · intro h
        rw [hok] at h
        cases h
      · intro h
        exact absurd h hs
    · intro _
      refine ⟨_, _, hok, ?_⟩
      unfold finalItem
      simp only
      rw [find?_id_map _ _ (fun it => id_of_stockCostUpd _ _ _ it)]
      rw [find?_id_of_nodup db.items hWF.1 A (List.mem_of_find?_eq_some hfind)]
      simp

/-- Witness for C3 at a concrete input: item with stock 10 and cost 5,
OUT of 3. -/
theorem c3_out_movement_witness :
    (create_inventory_transaction dbAB ("u") uuidA
        (mkReq (some ("OUT")) (some 3) none none) = .error .insufficientStock ↔
      itemA.currentStock - 3 < 0) ∧
    (¬ itemA.currentStock - 3 < 0 →
      ∃ db1 rec, create_inventory_transaction dbAB ("u") uuidA
          (mkReq (some ("OUT")) (some 3) none none) = .ok (db1, rec) ∧
        finalItem db1 itemA.id =
          some { itemA with currentStock := itemA.currentStock - 3 }) :=
  c3_out_movement dbAB ("u") uuidA (mkReq (some ("OUT")) (some 3) none none)
    itemA 3 (by decide) rfl rfl (by decide) (by decide)

lemma truthyQ_none : truthyQ none = false := rfl

lemma truthyQ_some (v : ℚ) : truthyQ (some v) = decide (v ≠ 0) := rfl

lemma truthy_getD_eq (c : Option ℚ) :
    (if truthyQ c then c.getD 0 else 0) = c.getD 0 := by
  cases c with
  | none => simp [truthyQ]
  | some v => by_cases hv : v = 0 <;> simp [truthyQ, hv]

/-- C2 (amended): for an IN movement with a supplied NONZERO incoming unit
cost, the new unit cost is the weighted average when current stock and
current cost are both positive and the incoming cost otherwise; a supplied
cost of exactly 0 is treated as absent, and with an absent (or zero)
supplied cost a plain IN leaves the unit cost unchanged.  The receiving
side of a TRANSFER behaves the same way for a positive supplied cost,
averaged against the destination's own prior stock and cost.  In every
case the new stock is the current stock plus the quantity. -/
theorem c2_in_cost_update :
    (∀ (db : DB) (u i : String) (td : InventoryTransactionCreate)
      (A : InventoryItemRec) (q : ℚ),
      db.WF →
      td.transactionType = some ("IN") →
      td.quantity = some q → 0 < q →
      findItemWhere db i = some A →
      ∃ db1 rec, create_inventory_transaction db u i td = .ok (db1, rec) ∧
        finalItem db1 A.id = some { A with
          currentStock := A.currentStock + q,
          unitCost :=
            if truthyQ td.unitCost then
              if 0 < A.currentStock ∧ 0 < A.unitCost.getD 0 then
                some ((A.currentStock * A.unitCost.getD 0 + q * td.unitCost.getD 0) /
                  (A.currentStock + q))
              else some (td.unitCost.getD 0)
            else A.unitCost }) ∧
    (∀ (db : DB) (u i d : String) (td : InventoryTransactionCreate)
      (A B : InventoryItemRec) (q c : ℚ),
      db.WF →
      td.transactionType = some ("TRANSFER") →
      td.quantity = some q → 0 < q →
      td.destinationItemId = some d → d ≠ "" → d ≠ i →
      findItemWhere db i = some A → findItemWhere db d = some B →
      A.id ≠ B.id →
      td.unitCost = some c → 0 < c →
      ¬ A.currentStock - q < 0 →
      ∃ db1 rec, create_inventory_transaction db u i td = .ok (db1, rec) ∧
        finalItem db1 B.id = some { B with
          currentStock := B.currentStock + q,
          unitCost :=
            if 0 < B.currentStock ∧ 0 < B.unitCost.getD 0 then
              some ((B.currentStock * B.unitCost.getD 0 + q * c) / (B.currentStock + q))
            else some c }) := by
  constructor
  · intro db u i td A q hWF ht hq hqpos hfind
    have hq0 : q ≠ 0 := ne_of_gt hqpos
    have hplan := plan_in_eq db i td A q ht hq hq0 hfind
    have hok := create_simple_of_plan db u i td _ hplan (by simp) hWF.2.2
    refine ⟨_, _, hok, ?_⟩
    unfold finalItem
    dsimp only
    rw [find?_id_map _ _ (fun it => id_of_stockCostUpd _ _ _ it)]
    rw [find?_id_of_nodup db.items hWF.1 A (List.mem_of_find?_eq_some hfind)]
    simp only [Option.map_some, if_pos rfl]
    rw [truthy_getD_eq]
    by_cases hc : truthyQ td.unitCost = true
    · by_cases havg : 0 < A.currentStock ∧ 0 < A.unitCost.getD 0
      · simp [hc, gt_iff_lt, havg]
      · simp [hc, gt_iff_lt, havg]
    · have hc0 : truthyQ td.unitCost = false := by simpa using hc
      cases hAc : A.unitCost with
      | none => simp [hc0, hAc, truthyQ_none]
      | some v =>
        by_cases hv : v = 0
        · simp [hc0, hAc, truthyQ_some, hv]
        · simp [hc0, hAc, truthyQ_some, hv]
  · intro db u i d td A B q c hWF ht hq hqpos hd hd0 hdi hfind hfd hAB hcost hcpos hstock
    have hq0 : q ≠ 0 := ne_of_gt hqpos
    have hplan := plan_transfer_eq db i td A B d q ht hq hq0 hd hd0 hdi hfind hfd
    rw [if_neg hstock] at hplan
    have hok := create_transfer_of_plan db u i td _ B hplan rfl rfl hWF.2.2
    refine ⟨_, _, hok, ?_⟩
    unfold finalItem
    dsimp only
    rw [find?_id_map _ _ (fun it => id_of_stockCostUpd _ _ _ it)]
    rw [find?_id_map _ _ (fun it => id_of_stockUpd _ _ it)]
    rw [find?_id_of_nodup db.items hWF.1 B (List.mem_of_find?_eq_some hfd)]
    simp only [Option.map_some']
    rw [if_neg (show ¬ (B.id = A.id) from fun h => hAB h.symm)]
    rw [if_pos rfl]
    have hct : truthyQ (some c) = true := by
      simp [truthyQ, ne_of_gt hcpos]
    unfold destNewUnitCost
    rw [hcost]
    simp only [hct, if_pos rfl, Option.getD_some, truthy_getD_eq]
    by_cases havg : 0 < B.currentStock ∧ 0 < B.unitCost.getD 0
    · have hnum : 0 < B.currentStock * B.unitCost.getD 0 + q * c := by
        have h1 : 0 < B.currentStock * B.unitCost.getD 0 := mul_pos havg.1 havg.2
        have h2 : 0 < q * c := mul_pos hqpos hcpos
        linarith
      have hden : 0 < B.currentStock + q := by linarith [havg.1]
      have hpos : 0 < (B.currentStock * B.unitCost.getD 0 + q * c) /
          (B.currentStock + q) := div_pos hnum hden
      have hne : ((B.currentStock * B.unitCost.getD 0 + q * c) /
          (B.currentStock + q)) ≠ 0 := ne_of_gt hpos
      simp [gt_iff_lt, havg, truthyQ_some, hne]
    · have hcne : c ≠ 0 := ne_of_gt hcpos
      simp [gt_iff_lt, havg, truthyQ_some, hcne]

/-- Witness for C2 (amended) at the spec's own numbers: stock 10 at cost 5
receiving 10 at cost 7 gives stock 20 at cost 6; and a transfer of 4 units
at cost 2 onto an empty uncosted item gives stock 4 at cost 2
(first receipt). -/
theorem c2_in_cost_update_witness :
    (∃ db1 rec, create_inventory_transaction dbAB ("u") uuidA
        (mkReq (some ("IN")) (some 10) (some 7) none) = .ok (db1, rec) ∧
      finalItem db1 itemA.id =
        some { itemA with currentStock := 20, unitCost := some 6 }) ∧
    (∃ db1 rec, create_inventory_transaction dbAB ("u") uuidA
        (mkReq (some ("TRANSFER")) (some 4) (some 2) (some uuidB)) = .ok (db1, rec) ∧
      finalItem db1 itemB.id =
        some { itemB with currentStock := 4, unitCost := some 2 }) := by
  constructor
  · obtain ⟨db1, rec, h1, h2⟩ :=
      c2_in_cost_update.1 dbAB ("u") uuidA (mkReq (some ("IN")) (some 10) (some 7) none)
        itemA 10 (by decide) rfl rfl (by norm_num) (by decide)
    refine ⟨db1, rec, h1, ?_⟩
    rw [h2]
    norm_num [itemA, mkReq, truthyQ_some]
  · obtain ⟨db1, rec, h1, h2⟩ :=
      c2_in_cost_update.2 dbAB ("u") uuidA uuidB
        (mkReq (some ("TRANSFER")) (some 4) (some 2) (some uuidB))
        itemA itemB 4 2 (by decide) rfl rfl (by norm_num) rfl (by decide) (by decide)
        (by decide) (by decide) (by decide) rfl (by norm_num)
        (by norm_num [itemA])
    refine ⟨db1, rec, h1, ?_⟩
    rw [h2]
    norm_num [itemB]

/-- Counterexample to C2 as stated: a supplied unit cost of exactly 0 is
NOT averaged — an IN of 10 units at cost 0 onto stock 10 at cost 5 leaves
the cost at 5, where the claim's weighted-average branch demands
(10·5 + 10·0)/20 = 2.5; and on the receiving side of a TRANSFER with no
supplied cost, a stored destination cost of value 0 is rewritten to null
rather than left unchanged. -/
theorem c2_zero_cost_counterexample :
    ((finalItem (applyCreate dbAB ("u") uuidA
        (mkReq (some ("IN")) (some 10) (some 0) none)) uuidA).map
          (fun it => it.unitCost) = some (some 5) ∧
      ¬ ((5 : ℚ) = (10 * 5 + 10 * 0) / (10 + 10))) ∧
    ((finalItem (applyCreate dbABz ("u") uuidA
        (mkReq (some ("TRANSFER")) (some 2) none (some uuidB))) uuidB).map
          (fun it => it.unitCost) = some none ∧
      itemBz.unitCost = some 0 ∧ ¬ ((none : Option ℚ) = some (0 : ℚ))) := by
  constructor
  · constructor
    · have hplan := plan_in_eq dbAB uuidA (mkReq (some ("IN")) (some 10) (some 0) none)
        itemA 10 rfl rfl (by decide) (by decide)
      have hok := create_simple_of_plan dbAB ("u") uuidA _ _ hplan (by simp)
        (by simp [dbAB])
      unfold applyCreate
      rw [hok]
      norm_num [finalItem, dbAB, itemA, itemB, mkReq, truthyQ_some, truthyQ_none,
        List.find?]
    · norm_num
  · constructor
    · have hplan := plan_transfer_eq dbABz uuidA
        (mkReq (some ("TRANSFER")) (some 2) none (some uuidB))
        itemA itemBz uuidB 2 rfl rfl (by decide) rfl (by decide) (by decide)
        (by decide) (by decide)
      rw [if_neg (by norm_num [itemA])] at hplan
      have hok := create_transfer_of_plan dbABz ("u") uuidA _ _ itemBz hplan rfl rfl
        (by simp [dbABz])
      unfold applyCreate
      rw [hok]
      norm_num [finalItem, dbABz, itemA, itemBz, mkReq, uuidA, uuidB,
        destNewUnitCost, truthyQ_some, truthyQ_none, List.find?]
      all_goals decide
    · exact ⟨rfl, by decide⟩

/-- C10: a supplied unit cost of exactly 0 is treated as if no unit cost
were supplied: an IN with unitCost = 0 leaves the item's unit cost
unchanged (line 882 tests truthiness), and on the destination side of a
TRANSFER a computed new unit cost of 0 is stored as null rather than as
the value 0 (line 972 tests truthiness of the computed cost). -/
theorem c10_zero_cost_normalization :
    (∀ (db : DB) (u i : String) (td : InventoryTransactionCreate)
      (A : InventoryItemRec) (q : ℚ),
      db.WF →
      td.transactionType = some ("IN") →
      td.quantity = some q → q ≠ 0 →
      td.unitCost = some 0 →
      findItemWhere db i = some A →
      ∃ db1 rec, create_inventory_transaction db u i td = .ok (db1, rec) ∧
        finalItem db1 A.id = some { A with currentStock := A.currentStock + q }) ∧
    (∀ (db : DB) (u i d : String) (td : InventoryTransactionCreate)
      (A B : InventoryItemRec) (q : ℚ),
      db.WF →
      td.transactionType = some ("TRANSFER") →
      td.quantity = some q → q ≠ 0 →
      td.destinationItemId = some d → d ≠ "" → d ≠ i →
      findItemWhere db i = some A → findItemWhere db d = some B →
      A.id ≠ B.id →
      ¬ A.currentStock - q < 0 →
      destNewUnitCost B q td.unitCost = some 0 →
      ∃ db1 rec, create_inventory_transaction db u i td = .ok (db1, rec) ∧
        finalItem db1 B.id =
          some { B with currentStock := B.currentStock + q, unitCost := none }) := by
  constructor
  · intro db u i td A q hWF ht hq hq0 hcost hfind
    have hplan := plan_in_eq db i td A q ht hq hq0 hfind
    have hok := create_simple_of_plan db u i td _ hplan (by simp) hWF.2.2
    refine ⟨_, _, hok, ?_⟩
    unfold finalItem
    dsimp only
    rw [find?_id_map _ _ (fun it => id_of_stockCostUpd _ _ _ it)]
    rw [find?_id_of_nodup db.items hWF.1 A (List.mem_of_find?_eq_some hfind)]
    simp only [Option.map_some', if_pos rfl]
    cases hAc : A.unitCost with
    | none => simp [hcost, hAc, truthyQ_some, truthyQ_none]
    | some v =>
      by_cases hv : v = 0
      · simp [hcost, hAc, truthyQ_some, hv]
      · simp [hcost, hAc, truthyQ_some, hv]
  · intro db u i d td A B q hWF ht hq hq0 hd hd0 hdi hfind hfd hAB hstock hzero
    have hplan := plan_transfer_eq db i td A B d q ht hq hq0 hd hd0 hdi hfind hfd
    rw [if_neg hstock] at hplan
    have hok := create_transfer_of_plan db u i td _ B hplan rfl rfl hWF.2.2
    refine ⟨_, _, hok, ?_⟩
    unfold finalItem
    dsimp only
    rw [find?_id_map _ _ (fun it => id_of_stockCostUpd _ _ _ it)]
    rw [find?_id_map _ _ (fun it => id_of_stockUpd _ _ it)]
    rw [find?_id_of_nodup db.items hWF.1 B (List.mem_of_find?_eq_some hfd)]
    simp only [Option.map_some']
    rw [if_neg (show ¬ (B.id = A.id) from fun h => hAB h.symm)]
    rw [if_pos rfl]
    rw [hzero]
    simp [truthyQ_some]

/-- Witness for C10: an IN of 10 at cost 0 onto stock 10 cost 5 keeps
cost 5; a transfer of 5 units at cost -2 onto stock 5 at cost 2 computes
the weighted average (5·2 + 5·(-2))/10 = 0, which is stored as null. -/
theorem c10_zero_cost_normalization_witness :
    (∃ db1 rec, create_inventory_transaction dbAB ("u") uuidA
        (mkReq (some ("IN")) (some 10) (some 0) none) = .ok (db1, rec) ∧
      finalItem db1 itemA.id =
        some { itemA with currentStock := itemA.currentStock + 10 }) ∧
    (∃ db1 rec, create_inventory_transaction dbAC ("u") uuidA
        (mkReq (some ("TRANSFER")) (some 5) (some (-2)) (some uuidB)) = .ok (db1, rec) ∧
      finalItem db1 itemC.id =
        some { itemC with currentStock := itemC.currentStock + 5, unitCost := none }) := by
  constructor
  · exact c10_zero_cost_normalization.1 dbAB ("u") uuidA
      (mkReq (some ("IN")) (some 10) (some 0) none) itemA 10
      (by decide) rfl rfl (by decide) rfl (by decide)
  · exact c10_zero_cost_normalization.2 dbAC ("u") uuidA uuidB
      (mkReq (some ("TRANSFER")) (some 5) (some (-2)) (some uuidB)) itemA itemC 5
      (by decide) rfl rfl (by decide) rfl (by decide) (by decide) (by decide)
      (by decide) (by decide) (by norm_num [itemA])
      (by norm_num [destNewUnitCost, itemC, mkReq, truthyQ_some])

/-- C4: a successful transfer of quantity q from item A to item B decreases
A's stock by exactly q, increases B's stock by exactly q, and appends
exactly two transaction rows — one on A, one on B, each of quantity q and
each storing the other's id in `relatedTransactionId`. -/
theorem c4_transfer_conservation (db : DB) (u i d : String)
    (td : InventoryTransactionCreate) (A B : InventoryItemRec) (q : ℚ)
    (hWF : db.WF)
    (ht : td.transactionType = some ("TRANSFER"))
    (hq : td.quantity = some q) (hq0 : q ≠ 0)
    (hd : td.destinationItemId = some d) (hd0 : d ≠ "") (hdi : d ≠ i)
    (hfind : findItemWhere db i = some A) (hfd : findItemWhere db d = some B)
    (hAB : A.id ≠ B.id) (hstock : ¬ A.currentStock - q < 0) :
    ∃ db1 ts tdst, create_inventory_transaction db u i td = .ok (db1, ts) ∧
      finalItem db1 A.id = some { A with currentStock := A.currentStock - q } ∧
      (∃ itB, finalItem db1 B.id = some itB ∧ itB.currentStock = B.currentStock + q) ∧
      db1.transactions = db.transactions ++ [ts, tdst] ∧
      ts.inventoryItemId = A.id ∧ tdst.inventoryItemId = B.id ∧
      ts.quantity = q ∧ tdst.quantity = q ∧
      ts.relatedTransactionId = some tdst.id ∧
      tdst.relatedTransactionId = some ts.id := by
  have hplan := plan_transfer_eq db i td A B d q ht hq hq0 hd hd0 hdi hfind hfd
  rw [if_neg hstock] at hplan
  have hok := create_transfer_of_plan db u i td _ B hplan rfl rfl hWF.2.2
  refine ⟨_, _, _, hok, ?_, ?_, rfl, ?_, ?_, ?_, ?_, ?_, ?_⟩
  · unfold finalItem
    dsimp only
    rw [find?_id_map _ _ (fun it => id_of_stockCostUpd _ _ _ it)]
    rw [find?_id_map _ _ (fun it => id_of_stockUpd _ _ it)]
    rw [find?_id_of_nodup db.items hWF.1 A (List.mem_of_find?_eq_some hfind)]
    simp only [Option.map_some', if_pos rfl]
    simp [hAB]
  · unfold finalItem
    dsimp only
    rw [find?_id_map _ _ (fun it => id_of_stockCostUpd _ _ _ it)]
    rw [find?_id_map _ _ (fun it => id_of_stockUpd _ _ it)]
    rw [find?_id_of_nodup db.items hWF.1 B (List.mem_of_find?_eq_some hfd)]
    simp only [Option.map_some']
    rw [if_neg (show ¬ (B.id = A.id) from fun h => hAB h.symm)]
    rw [if_pos rfl]
    exact ⟨_, rfl, rfl⟩
  · simp [mkTransferSrcTx]
  · simp [mkTransferDestTx]
  · simp [mkTransferSrcTx]
  · simp [mkTransferDestTx]
  · simp [mkTransferSrcTx, mkTransferDestTx]
  · simp [mkTransferSrcTx, mkTransferDestTx]

/-- Witness for C4: transferring 4 units from stock-10 item A to stock-0
item B. -/
theorem c4_transfer_conservation_witness :
    ∃ db1 ts tdst, create_inventory_transaction dbAB ("u") uuidA
        (mkReq (some ("TRANSFER")) (some 4) none (some uuidB)) = .ok (db1, ts) ∧
      finalItem db1 itemA.id = some { itemA with currentStock := itemA.currentStock - 4 } ∧
      (∃ itB, finalItem db1 itemB.id = some itB ∧
        itB.currentStock = itemB.currentStock + 4) ∧
      db1.transactions = dbAB.transactions ++ [ts, tdst] ∧
      ts.inventoryItemId = itemA.id ∧ tdst.inventoryItemId = itemB.id ∧
      ts.quantity = 4 ∧ tdst.quantity = 4 ∧
      ts.relatedTransactionId = some tdst.id ∧
      tdst.relatedTransactionId = some ts.id :=
  c4_transfer_conservation dbAB ("u") uuidA uuidB
    (mkReq (some ("TRANSFER")) (some 4) none (some uuidB)) itemA itemB 4
    (by decide) rfl rfl (by decide) rfl (by decide) (by decide) (by decide)
    (by decide) (by decide) (by norm_num [itemA])

/-- C6 (amended): a non-transfer operation creates exactly one transaction
row with a null `relatedTransactionId`; a transfer creates exactly two rows
forming a pair — the sending side tagged `TRANSFER`, the receiving side
created with `transactionType` `"IN"` (line 927), each storing the other's
id in `relatedTransactionId`. -/
theorem c6_transfer_pair_tagging :
    (∀ (db : DB) (u i : String) (td : InventoryTransactionCreate) (p : TxPlan),
      planTransaction db i td = .ok p → ¬ p.ttype = "TRANSFER" →
      (∀ t ∈ db.transactions, t.id < db.nextTxId) →
      ∃ db1 rec, create_inventory_transaction db u i td = .ok (db1, rec) ∧
        db1.transactions = db.transactions ++ [rec] ∧
        rec.relatedTransactionId = none) ∧
    (∀ (db : DB) (u i d : String) (td : InventoryTransactionCreate)
      (A B : InventoryItemRec) (q : ℚ),
      db.WF → td.transactionType = some ("TRANSFER") →
      td.quantity = some q → q ≠ 0 →
      td.destinationItemId = some d → d ≠ "" → d ≠ i →
      findItemWhere db i = some A → findItemWhere db d = some B →
      ¬ A.currentStock - q < 0 →
      ∃ db1 ts tdst, create_inventory_transaction db u i td = .ok (db1, ts) ∧
        db1.transactions = db.transactions ++ [ts, tdst] ∧
        ts.transactionType = "TRANSFER" ∧ tdst.transactionType = "IN" ∧
        ts.relatedTransactionId = some tdst.id ∧
        tdst.relatedTransactionId = some ts.id) := by
  constructor
  · intro db u i td p hplan hT hfresh
    have hok := create_simple_of_plan db u i td p hplan hT hfresh
    exact ⟨_, _, hok, rfl, rfl⟩
  · intro db u i d td A B q hWF ht hq hq0 hd hd0 hdi hfind hfd hstock
    have hplan := plan_transfer_eq db i td A B d q ht hq hq0 hd hd0 hdi hfind hfd
    rw [if_neg hstock] at hplan
    have hok := create_transfer_of_plan db u i td _ B hplan rfl rfl hWF.2.2
    refine ⟨_, _, _, hok, rfl, ?_, ?_, ?_, ?_⟩
    · simp [mkTransferSrcTx]
    · simp [mkTransferDestTx]
    · simp [mkTransferSrcTx, mkTransferDestTx]
    · simp [mkTransferSrcTx, mkTransferDestTx]

/-- Witness for C6 (amended): an OUT of 3 creates one unlinked row;
a transfer of 4 creates the TRANSFER/IN-tagged mutual pair. -/
theorem c6_transfer_pair_tagging_witness :
    (∃ db1 rec, create_inventory_transaction dbAB ("u") uuidA
        (mkReq (some ("OUT")) (some 3) none none) = .ok (db1, rec) ∧
      db1.transactions = dbAB.transactions ++ [rec] ∧
      rec.relatedTransactionId = none) ∧
    (∃ db1 ts tdst, create_inventory_transaction dbAB ("u") uuidA
        (mkReq (some ("TRANSFER")) (some 4) none (some uuidB)) = .ok (db1, ts) ∧
      db1.transactions = dbAB.transactions ++ [ts, tdst] ∧
      ts.transactionType = "TRANSFER" ∧ tdst.transactionType = "IN" ∧
      ts.relatedTransactionId = some tdst.id ∧
      tdst.relatedTransactionId = some ts.id) := by
  constructor
  · have hplan := plan_out_eq dbAB uuidA (mkReq (some ("OUT")) (some 3) none none)
      itemA 3 rfl rfl (by decide) (by decide)
    rw [if_neg (by norm_num [itemA])] at hplan
    exact c6_transfer_pair_tagging.1 dbAB ("u") uuidA _ _ hplan (by decide)
      (by simp [dbAB])
  · exact c6_transfer_pair_tagging.2 dbAB ("u") uuidA uuidB
      (mkReq (some ("TRANSFER")) (some 4) none (some uuidB)) itemA itemB 4
      (by decide) rfl rfl (by decide) rfl (by decide) (by decide) (by decide)
      (by decide) (by norm_num [itemA])

/-- Counterexample to C6 as stated: after a transfer, the store contains a
transaction row whose `relatedTransactionId` is non-null but whose
`transactionType` is not `TRANSFER` (the receiving side is created with
type `"IN"` at line 927). -/
theorem c6_related_non_transfer_counterexample :
    ((applyCreate dbAB ("u") uuidA
        (mkReq (some ("TRANSFER")) (some 4) none (some uuidB))).transactions.any
      (fun t => t.relatedTransactionId.isSome &&
        !(decide (t.transactionType = "TRANSFER")))) = true := by
  have hplan := plan_transfer_eq dbAB uuidA
    (mkReq (some ("TRANSFER")) (some 4) none (some uuidB))
    itemA itemB uuidB 4 rfl rfl (by decide) rfl (by decide) (by decide)
    (by decide) (by decide)
  rw [if_neg (by norm_num [itemA])] at hplan
  have hok := create_transfer_of_plan dbAB ("u") uuidA _ _ itemB hplan rfl rfl
    (by simp [dbAB])
  unfold applyCreate
  rw [hok]
  simp [dbAB, mkTransferSrcTx, mkTransferDestTx]

/-- C5: the two transaction inserts and two item updates of a transfer all
live inside the `prisma.tx()` block (lines 908-974); when a simulated
fault hits any write of that block, the request fails and the store is
left exactly as it was — no balance change and no transaction row. -/
theorem c5_transfer_atomicity (db : DB) (u i : String)
    (td : InventoryTransactionCreate) (p : TxPlan) (dest : InventoryItemRec)
    (fault : DBWrite → Bool)
    (hplan : planTransaction db i td = .ok p) (hT : p.ttype = "TRANSFER")
    (hdest : p.destItem = some dest)
    (hfault : (transferWrites db u p dest).any fault = true) :
    create_tx_with_faults db u i td fault = .error .txAborted ∧
    applyCreateFaults db u i td fault = db := by
  have h1 : create_tx_with_faults db u i td fault = .error .txAborted := by
    unfold create_tx_with_faults
    rw [hplan]
    simp only [if_pos hT]
    rw [hdest]
    simp only [runAtomic]
    rw [if_pos hfault]
  exact ⟨h1, by unfold applyCreateFaults; rw [h1]⟩

/-- Witness for C5: failing the destination-side insert of a concrete
transfer aborts the request and leaves the store untouched. -/
theorem c5_transfer_atomicity_witness :
    create_tx_with_faults dbAB ("u") uuidA
      (mkReq (some ("TRANSFER")) (some 4) none (some uuidB)) faultDestCreate =
        .error .txAborted ∧
    applyCreateFaults dbAB ("u") uuidA
      (mkReq (some ("TRANSFER")) (some 4) none (some uuidB)) faultDestCreate = dbAB := by
  refine c5_transfer_atomicity dbAB ("u") uuidA _ planC5 itemB faultDestCreate ?_ rfl rfl
    (by decide)
  have hplan := plan_transfer_eq dbAB uuidA
    (mkReq (some ("TRANSFER")) (some 4) none (some uuidB))
    itemA itemB uuidB 4 rfl rfl (by decide) rfl (by decide) (by decide)
    (by decide) (by decide)
  rw [if_neg (by norm_num [itemA])] at hplan
  exact hplan

/-- C8 (amended): before any state change, the handler rejects with an
HTTP-400 failure every request whose quantity is missing or zero (Python
truthiness, line 808 — negative quantities are NOT rejected), whose
transaction type is missing/empty or not one of IN/OUT/ADJUSTMENT/TRANSFER,
a TRANSFER with a missing/empty destination, and a TRANSFER whose supplied
destination identifier string is exactly the supplied source identifier
string (line 844 compares the raw strings, so a self-transfer written with
two different identifiers of the same item is NOT rejected). -/
theorem c8_request_validation :
    (∀ (db : DB) (u i : String) (td : InventoryTransactionCreate),
      (¬ truthyStr td.transactionType ∨ ¬ truthyQ td.quantity) →
      create_inventory_transaction db u i td = .error .missingTypeOrQuantity ∧
      txErrorStatus .missingTypeOrQuantity = 400 ∧
      applyCreate db u i td = db) ∧
    (∀ (db : DB) (u i : String) (td : InventoryTransactionCreate) (t : String),
      td.transactionType = some t → truthyStr td.transactionType →
      truthyQ td.quantity →
      ¬ (t = "IN" ∨ t = "OUT" ∨ t = "ADJUSTMENT" ∨ t = "TRANSFER") →
      create_inventory_transaction db u i td = .error .invalidType ∧
      txErrorStatus .invalidType = 400 ∧ applyCreate db u i td = db) ∧
    (∀ (db : DB) (u i : String) (td : InventoryTransactionCreate)
      (A : InventoryItemRec),
      td.transactionType = some ("TRANSFER") → truthyQ td.quantity →
      findItemWhere db i = some A →
      ¬ truthyStr td.destinationItemId →
      create_inventory_transaction db u i td = .error .destinationRequired ∧
      txErrorStatus .destinationRequired = 400 ∧ applyCreate db u i td = db) ∧
    (∀ (db : DB) (u i : String) (td : InventoryTransactionCreate)
      (A : InventoryItemRec),
      td.transactionType = some ("TRANSFER") → truthyQ td.quantity →
      findItemWhere db i = some A →
      td.destinationItemId = some i →
      ∃ e, create_inventory_transaction db u i td = .error e ∧
        txErrorStatus e = 400 ∧ applyCreate db u i td = db) := by
  refine ⟨?_, ?_, ?_, ?_⟩
  · intro db u i td h
    have hplan : planTransaction db i td = .error .missingTypeOrQuantity := by
      unfold planTransaction
      rw [if_pos h]
    have hc := create_error_of_plan db u i td _ hplan
    exact ⟨hc, rfl, by unfold applyCreate; rw [hc]⟩
  · intro db u i td t ht hts htq hbad
    have hplan : planTransaction db i td = .error .invalidType := by
      unfold planTransaction
      rw [if_neg (by simp [hts, htq])]
      rw [ht]
      simp only [Option.getD_some]
      rw [if_pos hbad]
    have hc := create_error_of_plan db u i td _ hplan
    exact ⟨hc, rfl, by unfold applyCreate; rw [hc]⟩
  · intro db u i td A ht htq hfind hdest
    have hplan : planTransaction db i td = .error .destinationRequired := by
      unfold planTransaction
      rw [if_neg (by simp [truthyStr, ht, htq])]
      rw [ht]
      simp only [Option.getD_some]
      rw [if_neg (by simp), hfind]
      simp [hdest]
    have hc := create_error_of_plan db u i td _ hplan
    exact ⟨hc, rfl, by unfold applyCreate; rw [hc]⟩
  · intro db u i td A ht htq hfind hdest
    by_cases hi : i = ""
    · refine ⟨.destinationRequired, ?_⟩
      have hplan : planTransaction db i td = .error .destinationRequired := by
        unfold planTransaction
        rw [if_neg (by simp [truthyStr, ht, htq])]
        rw [ht]
        simp only [Option.getD_some]
        rw [if_neg (by simp), hfind]
        simp [truthyStr, hdest, hi]
      have hc := create_error_of_plan db u i td _ hplan
      exact ⟨hc, rfl, by unfold applyCreate; rw [hc]⟩
    · refine ⟨.selfTransfer, ?_⟩
      have hplan : planTransaction db i td = .error .selfTransfer := by
        unfold planTransaction
        rw [if_neg (by simp [truthyStr, ht, htq])]
        rw [ht]
        simp only [Option.getD_some]
        rw [if_neg (by simp), hfind]
        simp [truthyStr, hdest, hi]
      have hc := create_error_of_plan db u i td _ hplan
      exact ⟨hc, rfl, by unfold applyCreate; rw [hc]⟩

/-- Witness for C8 (amended) at concrete inputs: quantity 0, an unknown
type, a TRANSFER without destination, and a TRANSFER whose destination
string is the source string verbatim. -/
theorem c8_request_validation_witness :
    (create_inventory_transaction dbAB ("u") uuidA
        (mkReq (some ("IN")) (some 0) none none) = .error .missingTypeOrQuantity ∧
      txErrorStatus .missingTypeOrQuantity = 400 ∧
      applyCreate dbAB ("u") uuidA (mkReq (some ("IN")) (some 0) none none) = dbAB) ∧
    (create_inventory_transaction dbAB ("u") uuidA
        (mkReq (some ("RETURN")) (some 5) none none) = .error .invalidType ∧
      txErrorStatus .invalidType = 400 ∧
      applyCreate dbAB ("u") uuidA (mkReq (some ("RETURN")) (some 5) none none) = dbAB) ∧
    (create_inventory_transaction dbAB ("u") uuidA
        (mkReq (some ("TRANSFER")) (some 5) none none) = .error .destinationRequired ∧
      txErrorStatus .destinationRequired = 400 ∧
      applyCreate dbAB ("u") uuidA (mkReq (some ("TRANSFER")) (some 5) none none) = dbAB) ∧
    (∃ e, create_inventory_transaction dbAB ("u") uuidA
        (mkReq (some ("TRANSFER")) (some 5) none (some uuidA)) = .error e ∧
      txErrorStatus e = 400 ∧
      applyCreate dbAB ("u") uuidA
        (mkReq (some ("TRANSFER")) (some 5) none (some uuidA)) = dbAB) := by
  refine ⟨?_, ?_, ?_, ?_⟩
  · exact c8_request_validation.1 dbAB ("u") uuidA
      (mkReq (some ("IN")) (some 0) none none) (by right; decide)
  · exact c8_request_validation.2.1 dbAB ("u") uuidA
      (mkReq (some ("RETURN")) (some 5) none none) ("RETURN") rfl (by decide)
      (by decide) (by decide)
  · exact c8_request_validation.2.2.1 dbAB ("u") uuidA
      (mkReq (some ("TRANSFER")) (some 5) none none) itemA rfl (by decide)
      (by decide) (by decide)
  · exact c8_request_validation.2.2.2 dbAB ("u") uuidA
      (mkReq (some ("TRANSFER")) (some 5) none (some uuidA)) itemA rfl (by decide)
      (by decide) rfl

/-- Counterexample to C8 as stated: a negative quantity is accepted (the
check at line 808 only catches falsy values), and a self-transfer written
as source = system id, destination = the same item's code is accepted —
the raw-string comparison at line 844 does not detect it even though the
destination resolves to the source item. -/
theorem c8_validation_counterexample :
    (∃ db1 rec, create_inventory_transaction dbAB ("u") uuidA
        (mkReq (some ("IN")) (some (-5)) none none) = .ok (db1, rec)) ∧
    (findItemWhere dbAB ("X001") = some itemA ∧
      ∃ db1 rec, create_inventory_transaction dbAB ("u") uuidA
        (mkReq (some ("TRANSFER")) (some 4) none (some ("X001"))) = .ok (db1, rec)) := by
  constructor
  · have hplan := plan_in_eq dbAB uuidA (mkReq (some ("IN")) (some (-5)) none none)
      itemA (-5) rfl rfl (by decide) (by decide)
    have hok := create_simple_of_plan dbAB ("u") uuidA _ _ hplan (by decide)
      (by simp [dbAB])
    exact ⟨_, _, hok⟩
  · refine ⟨by decide, ?_⟩
    have hplan := plan_transfer_eq dbAB uuidA
      (mkReq (some ("TRANSFER")) (some 4) none (some ("X001")))
      itemA itemA ("X001") 4 rfl rfl (by decide) rfl (by decide) (by decide)
      (by decide) (by decide)
    rw [if_neg (by norm_num [itemA])] at hplan
    have hok := create_transfer_of_plan dbAB ("u") uuidA _ _ itemA hplan rfl rfl
      (by simp [dbAB])
    exact ⟨_, _, hok⟩

/-- C1 fails on the code: quantity validation at line 808 only rejects
falsy values, so an IN with a negative quantity is accepted and drives
`currentStock` negative without `InsufficientStock` — here an IN of
quantity -15 on a stock-10 item succeeds and leaves stock -5. -/
theorem c1_negative_quantity_breaks_nonnegativity :
    (∃ db1 rec, create_inventory_transaction dbAB ("u") uuidA
        (mkReq (some ("IN")) (some (-15)) none none) = .ok (db1, rec)) ∧
    ((finalItem (applyCreate dbAB ("u") uuidA
        (mkReq (some ("IN")) (some (-15)) none none)) uuidA).map
          (fun it => it.currentStock) = some (-5)) ∧
    ((-5 : ℚ) < 0) := by
  have hplan := plan_in_eq dbAB uuidA (mkReq (some ("IN")) (some (-15)) none none)
    itemA (-15) rfl rfl (by decide) (by decide)
  have hok := create_simple_of_plan dbAB ("u") uuidA _ _ hplan (by decide)
    (by simp [dbAB])
  refine ⟨⟨_, _, hok⟩, ?_, by norm_num⟩
  unfold applyCreate
  rw [hok]
  norm_num [finalItem, dbAB, itemA, itemB, mkReq, uuidA, uuidB, truthyQ_some,
    truthyQ_none, List.find?]

/-- C9 fails on the code: the insufficient-stock check runs before
`prisma.tx()` against the item row read at the start of the request, and
the write inside the block stores a precomputed absolute balance.  Two
concurrent OUTs of 10 against a stock-10 item therefore BOTH pass the
check; after both commit, the balance is 0 while the ledger holds two
OUT-10 rows — the balance no longer equals the initial stock minus the
recorded outflow (0 ≠ 10 − 10 − 10). -/
theorem c9_stale_check_race :
    (planTransaction dbAB uuidA (mkReq (some ("OUT")) (some 10) none none) ≠
      .error .insufficientStock) ∧
    ((concurrentCreate dbAB ("u") uuidA (mkReq (some ("OUT")) (some 10) none none)
        uuidA (mkReq (some ("OUT")) (some 10) none none)).map
      (fun dbF => (finalItem dbF uuidA).map (fun it => it.currentStock)) =
        some (some 0)) ∧
    ((concurrentCreate dbAB ("u") uuidA (mkReq (some ("OUT")) (some 10) none none)
        uuidA (mkReq (some ("OUT")) (some 10) none none)).map
      (fun dbF => dbF.transactions.map (fun t => (t.transactionType, t.quantity))) =
        some [(("OUT" : String), (10 : ℚ)), (("OUT" : String), (10 : ℚ))]) ∧
    ¬ ((0 : ℚ) = 10 - 10 - 10) := by
  have hplan := plan_out_eq dbAB uuidA (mkReq (some ("OUT")) (some 10) none none)
    itemA 10 rfl rfl (by decide) (by decide)
  rw [if_neg (by norm_num [itemA])] at hplan
  have hpass : planTransaction dbAB uuidA
      (mkReq (some ("OUT")) (some 10) none none) ≠ .error .insufficientStock := by
    rw [hplan]
    intro h
    cases h
  refine ⟨hpass, ?_, ?_, by norm_num⟩
  · unfold concurrentCreate
    rw [hplan]
    norm_num [finalItem, runTx, simpleWrites, applyWrite, mkSimpleTx, dbAB, itemA,
      itemB, mkReq, uuidA, uuidB, truthyQ_none, truthyQ_some, List.find?,
      (show ¬ (("OUT" : String) = "IN") from by decide),
      (show ¬ (("OUT" : String) = "TRANSFER") from by decide),
      (show ¬ (("bbbbbbbb-bbbb-bbbb-bbbb-bbbbbbbbbbbb" : String) =
        "aaaaaaaa-aaaa-aaaa-aaaa-aaaaaaaaaaaa") from by decide),
      (show ¬ (("aaaaaaaa-aaaa-aaaa-aaaa-aaaaaaaaaaaa" : String) =
        "bbbbbbbb-bbbb-bbbb-bbbb-bbbbbbbbbbbb") from by decide)]
  · unfold concurrentCreate
    rw [hplan]
    norm_num [runTx, simpleWrites, applyWrite, mkSimpleTx, dbAB, itemA,
      itemB, mkReq, uuidA, uuidB, truthyQ_none, truthyQ_some, List.find?,
      (show ¬ (("OUT" : String) = "IN") from by decide),
      (show ¬ (("OUT" : String) = "TRANSFER") from by decide),
      (show ¬ (("bbbbbbbb-bbbb-bbbb-bbbb-bbbbbbbbbbbb" : String) =
        "aaaaaaaa-aaaa-aaaa-aaaa-aaaaaaaaaaaa") from by decide),
      (show ¬ (("aaaaaaaa-aaaa-aaaa-aaaa-aaaaaaaaaaaa" : String) =
        "bbbbbbbb-bbbb-bbbb-bbbb-bbbbbbbbbbbb") from by decide)]

lemma bulk_matching_length_iff (txs : List InventoryTransactionRec)
    (ids : List Nat) (iid : String)
    (hndt : (txs.map (fun t => t.id)).Nodup) (hnd : ids.Nodup) :
    (txs.filter (fun t => ids.contains t.id && decide (t.inventoryItemId = iid))).length
        = ids.length ↔
      ∀ j ∈ ids, ∃ t ∈ txs, t.id = j ∧ t.inventoryItemId = iid := by
  set p : InventoryTransactionRec → Bool :=
    fun t => ids.contains t.id && decide (t.inventoryItemId = iid) with hp
  have hsub : ((txs.filter p).map (fun t => t.id)).Sublist (txs.map (fun t => t.id)) :=
    List.Sublist.map _ (List.filter_sublist txs)
  have hndm : ((txs.filter p).map (fun t => t.id)).Nodup := List.Nodup.sublist hsub hndt
  have hsubset : ((txs.filter p).map (fun t => t.id)) ⊆ ids := by
    intro j hj
    obtain ⟨t, ht, rfl⟩ := List.mem_map.mp hj
    have := (List.mem_filter.mp ht).2
    rw [hp] at this
    simp only [Bool.and_eq_true, decide_eq_true_eq] at this
    simpa using this.1
  have hsp : ((txs.filter p).map (fun t => t.id)).Subperm ids :=
    List.subperm_of_subset hndm hsubset
  constructor
  · intro hlen j hj
    have hperm : ((txs.filter p).map (fun t => t.id)).Perm ids :=
      hsp.perm_of_length_le (by rw [List.length_map, hlen])
    have hmem : j ∈ (txs.filter p).map (fun t => t.id) := hperm.mem_iff.mpr hj
    obtain ⟨t, ht, rfl⟩ := List.mem_map.mp hmem
    have hft := List.mem_filter.mp ht
    have hpt := hft.2
    rw [hp] at hpt
    simp only [Bool.and_eq_true, decide_eq_true_eq] at hpt
    exact ⟨t, hft.1, rfl, hpt.2⟩
  · intro hall
    have hids : ids ⊆ (txs.filter p).map (fun t => t.id) := by
      intro j hj
      obtain ⟨t, ht, hid, hitem⟩ := hall j hj
      have hpt : p t = true := by
        rw [hp]
        simp only [Bool.and_eq_true, decide_eq_true_eq]
        exact ⟨by simpa [hid] using hj, hitem⟩
      exact List.mem_map.mpr ⟨t, List.mem_filter.mpr ⟨ht, hpt⟩, hid⟩
    have hsp2 : ids.Subperm ((txs.filter p).map (fun t => t.id)) :=
      List.subperm_of_subset hnd hids
    have h1 := hsp.length_le
    have h2 := hsp2.length_le
    rw [List.length_map] at h1 h2
    exact Nat.le_antisymm h1 h2

/-- C7 (amended): with distinct requested ids, bulkDelete succeeds iff every
requested id exists and belongs to the target item; a mismatch fails with
an HTTP-400 error (not 404/NotFound) and deletes nothing; on success
exactly the requested rows are deleted and the count of deleted rows is
returned. -/
theorem c7_bulk_delete_all_or_nothing (db : DB) (i : String) (ids : List Nat)
    (it : InventoryItemRec)
    (hWF : db.WF) (hne : ids ≠ []) (hnd : ids.Nodup)
    (hfind : findItemWhere db i = some it) :
    ((∃ db1 n, bulk_delete_transactions db i ids = .ok (db1, n)) ↔
      ∀ j ∈ ids, ∃ t ∈ db.transactions, t.id = j ∧ t.inventoryItemId = it.id) ∧
    (∀ e, bulk_delete_transactions db i ids = .error e →
      applyBulkDelete db i ids = db) ∧
    (¬ (∀ j ∈ ids, ∃ t ∈ db.transactions, t.id = j ∧ t.inventoryItemId = it.id) →
      bulk_delete_transactions db i ids = .error .someTransactionsNotFound ∧
      bulkDelErrorStatus .someTransactionsNotFound = 400) ∧
    (∀ db1 n, bulk_delete_transactions db i ids = .ok (db1, n) →
      n = ids.length ∧
      (∀ t ∈ db.transactions, (t ∈ db1.transactions ↔ ¬ t.id ∈ ids)) ∧
      (∀ t ∈ db1.transactions, t ∈ db.transactions)) := by
  have hbulk : bulk_delete_transactions db i ids =
      (if (db.transactions.filter (fun t =>
            ids.contains t.id && decide (t.inventoryItemId = it.id))).length ≠ ids.length
       then .error .someTransactionsNotFound
       else .ok ({ db with transactions := db.transactions.filter (fun t =>
              !(ids.contains t.id && decide (t.inventoryItemId = it.id))) },
            (db.transactions.filter (fun t =>
              ids.contains t.id && decide (t.inventoryItemId = it.id))).length)) := by
    unfold bulk_delete_transactions
    rw [if_neg (by simpa [List.isEmpty_iff] using hne), hfind]
  have hiff := bulk_matching_length_iff db.transactions ids it.id hWF.2.1 hnd
  by_cases hlen : (db.transactions.filter (fun t =>
      ids.contains t.id && decide (t.inventoryItemId = it.id))).length = ids.length
  · rw [if_neg (by simpa using hlen)] at hbulk
    refine ⟨?_, ?_, ?_, ?_⟩
    · exact Iff.intro (fun _ => hiff.mp hlen) (fun _ => ⟨_, _, hbulk⟩)
    · intro e he
      rw [hbulk] at he
      cases he
    · intro hno
      exact absurd (hiff.mp hlen) hno
    · intro db1 n hok
      rw [hbulk] at hok
      cases hok
      refine ⟨hlen, ?_, ?_⟩
      · intro t htmem
        simp only [List.mem_filter, Bool.not_eq_eq_eq_not, Bool.not_true,
          Bool.and_eq_true, decide_eq_true_eq]
        constructor
        · intro h hin
          have hfalse := h.2
          have hcont : ids.contains t.id = true := by simpa using hin
          have hitem : t.inventoryItemId = it.id := by
            obtain ⟨t', ht', hid', hitem'⟩ := hiff.mp hlen t.id hin
            have hteq : t = t' :=
              List.inj_on_of_nodup_map hWF.2.1 htmem ht' (by rw [hid'])
            rw [hteq, hitem']
          simp [hcont, hitem] at hfalse
          exact hfalse hin
        · intro hnin
          refine ⟨htmem, ?_⟩
          have hcont : ids.contains t.id = false := by simpa using hnin
          rw [hcont, Bool.false_and]
      · intro t ht
        exact (List.mem_filter.mp ht).1
  · rw [if_pos hlen] at hbulk
    refine ⟨?_, ?_, ?_, ?_⟩
    · constructor
      · intro h
        obtain ⟨db1, n, hok⟩ := h
        rw [hbulk] at hok
        cases hok
      · intro hall
        exact absurd (hiff.mpr hall) hlen
    · intro e he
      unfold applyBulkDelete
      rw [hbulk]
    · intro hno
      exact ⟨hbulk, rfl⟩
    · intro db1 n hok
      rw [hbulk] at hok
      cases hok

/-- Witness for C7 (amended) on a store with two transactions on item A,
deleting both. -/
theorem c7_bulk_delete_all_or_nothing_witness :
    ((∃ db1 n, bulk_delete_transactions dbDel uuidA [0, 1] = .ok (db1, n)) ↔
      ∀ j ∈ ([0, 1] : List Nat), ∃ t ∈ dbDel.transactions, t.id = j ∧
        t.inventoryItemId = itemA.id) ∧
    (∀ e, bulk_delete_transactions dbDel uuidA [0, 1] = .error e →
      applyBulkDelete dbDel uuidA [0, 1] = dbDel) ∧
    (¬ (∀ j ∈ ([0, 1] : List Nat), ∃ t ∈ dbDel.transactions, t.id = j ∧
        t.inventoryItemId = itemA.id) →
      bulk_delete_transactions dbDel uuidA [0, 1] = .error .someTransactionsNotFound ∧
      bulkDelErrorStatus .someTransactionsNotFound = 400) ∧
    (∀ db1 n, bulk_delete_transactions dbDel uuidA [0, 1] = .ok (db1, n) →
      n = ([0, 1] : List Nat).length ∧
      (∀ t ∈ dbDel.transactions,
        (t ∈ db1.transactions ↔ ¬ t.id ∈ ([0, 1] : List Nat))) ∧
      (∀ t ∈ db1.transactions, t ∈ dbDel.transactions)) :=
  c7_bulk_delete_all_or_nothing dbDel uuidA [0, 1] itemA (by decide) (by decide)
    (by decide) (by decide)

/-- Counterexample to C7 as stated: when one of the requested ids belongs
to a different item, the failure is surfaced as HTTP 400 (the handler's
line 1112), not 404/NotFound; and a request listing the same valid id
twice fails even though every requested id exists and belongs to the
item. -/
theorem c7_bulk_delete_counterexample :
    (bulk_delete_transactions dbDel2 uuidA [0, 1] = .error .someTransactionsNotFound ∧
      bulkDelErrorStatus .someTransactionsNotFound = 400 ∧
      ¬ (bulkDelErrorStatus .someTransactionsNotFound = 404)) ∧
    ((∀ j ∈ ([0, 0] : List Nat), ∃ t ∈ dbDel.transactions, t.id = j ∧
        t.inventoryItemId = itemA.id) ∧
      bulk_delete_transactions dbDel uuidA [0, 0] =
        .error .someTransactionsNotFound) :=
  ⟨⟨rfl, rfl, by decide⟩, ⟨by decide, rfl⟩⟩

end GoCodes
